import Mathlib

/-!
Verification of the `ng-admin-core` authentication subsystem of the
labyrinth-nexus Angular admin template.

We shallowly embed the TypeScript sources as pure Lean functions:

* `jwt.util.ts` — `isJwtExpired`, `getJwtExpiration`, `getJwtTimeRemaining`.
  The raw `decodeJwt` delegates to the browser primitives `atob`,
  `decodeURIComponent` and `JSON.parse`; we therefore abstract it as a
  function `String → Option JwtPayload` and quantify over it, keeping the
  repository's logic *after* decoding exact (including the JavaScript
  truthiness test `!decoded.exp`, under which the number 0 is falsy).
* `auth.service.ts` — the service state is a record of its signals and
  timers; HTTP- and router-side effects are recorded in an explicit
  effect list; timers are stored as absolute deadlines.
* `auth.guard.ts` and the auth interceptor — pure functions of the state,
  the request and the outcome of the HTTP calls involved.

JavaScript `x || default` on numbers/strings is modelled by `jsOrNum` /
`jsOrStr` (0, "" and undefined select the default), matching the source.
-/

namespace LabyrinthNexus

/-- JavaScript `v || d` for an optional number: `undefined` and `0` are
falsy and select the default. -/
def jsOrNum (v : Option Int) (d : Int) : Int :=
  match v with
  | none => d
  | some x => if x = 0 then d else x

/-- JavaScript `v || d` for an optional string: `undefined` and `""` are
falsy and select the default. -/
def jsOrStr (v : Option String) (d : String) : String :=
  match v with
  | none => d
  | some s => if s = "" then d else s

/-- The decoded JWT payload, restricted to the only claim the repository
inspects: the numeric `exp` claim (absent when the JSON object has no
`exp` member). -/
structure JwtPayload where
  exp : Option Int
deriving DecidableEq

/-- `decodeJwt` (jwt.util.ts) delegates to browser base64/JSON primitives;
we abstract it as any partial decoding function and quantify over it. -/
def JwtDecoder : Type := String → Option JwtPayload

/-- `isJwtExpired` (jwt.util.ts lines 35-41): decode; if the payload is
missing or its `exp` is falsy (absent or the number 0) return `true`;
otherwise compare `new Date(exp * 1000) < new Date()`, i.e.
`exp * 1000 < now` in epoch milliseconds. -/
def isJwtExpired (decode : JwtDecoder) (now : Int) (token : String) : Bool :=
  match decode token with
  | none => true
  | some p =>
    match p.exp with
    | none => true
    | some e => if e = 0 then true else decide (e * 1000 < now)

/-- `getJwtExpiration` (jwt.util.ts lines 48-53): the epoch-millisecond
timestamp `exp * 1000`, or `null` when the payload is missing or its
`exp` is falsy. -/
def getJwtExpiration (decode : JwtDecoder) (token : String) : Option Int :=
  match decode token with
  | none => none
  | some p =>
    match p.exp with
    | none => none
    | some e => if e = 0 then none else some (e * 1000)

/-- `getJwtTimeRemaining` (jwt.util.ts lines 60-66):
`Math.max(0, expiration - Date.now())`, or `null` when there is no
expiration. -/
def getJwtTimeRemaining (decode : JwtDecoder) (now : Int) (token : String) : Option Int :=
  match getJwtExpiration decode token with
  | none => none
  | some e => some (max 0 (e - now))

/-- A role, as in the library README's `Role` interface; only `name` is
inspected by the service. -/
structure Role where
  name : String
deriving DecidableEq

/-- `AuthUser` (library README): only the optional `roles` array is
inspected by the service's RBAC checks (`user?.roles?.some`). -/
structure AuthUser where
  id : String
  roles : Option (List Role)
deriving DecidableEq

/-- `token.storage` of `AuthConfig` (auth-config.ts):
`'localStorage' | 'sessionStorage' | 'memory'`. -/
inductive TokenStorageKind where
  | localStorage
  | sessionStorage
  | memory
deriving DecidableEq

/-- The slice of `AuthConfig` (auth-config.ts) that the verified code
reads, flattened. `headerScheme` models `token.headerPrefix`,
`loginRoute` models `routes.login`, `afterLogoutRoute` models
`routes.afterLogout`; missing optional members are `none`. -/
structure AuthConfigModel where
  storageKind : TokenStorageKind
  accessTokenKey : Option String
  headerScheme : Option String
  refreshBeforeExpiry : Option Int
  inactivityTimeout : Option Int
  enableCrossTabSync : Bool
  loginRoute : Option String
  afterLogoutRoute : Option String
  skipAuthEndpoints : List String
deriving DecidableEq

/-- The `AuthService` state: its signals (`accessToken`, `_user`,
`isInitialized`, `isRefreshing$`, `lastActivityTime`) and its two timers,
stored as the absolute epoch-millisecond instant at which they fire. -/
structure AuthState where
  accessToken : Option String
  user : Option AuthUser
  isInitialized : Bool
  isRefreshing : Bool
  refreshTimer : Option Int
  inactivityTimer : Option Int
  lastActivityTime : Int
deriving DecidableEq

/-- The state of a freshly constructed service, before
`loadTokenFromStorage` runs; `t0` is `Date.now()` at construction. -/
def initialState (t0 : Int) : AuthState :=
  { accessToken := none
    user := none
    isInitialized := false
    isRefreshing := false
    refreshTimer := none
    inactivityTimer := none
    lastActivityTime := t0 }

/-- Side effects of the service on the browser and the router. -/
inductive Effect where
  | localSet (key value : String)
  | localRemove (key : String)
  | sessionSet (key value : String)
  | sessionRemove (key : String)
  | navigate (route : Option String)
  | navigateWithReturnUrl (route returnUrl : String)
deriving DecidableEq

/-- `isAuthenticated` (auth.service.ts line 45):
`accessToken() !== null && this._user() !== null`. -/
def isAuthenticated (s : AuthState) : Bool :=
  s.accessToken.isSome && s.user.isSome

/-- `this.authConfig.token.accessTokenKey || 'access_token'`. -/
def storageKey (cfg : AuthConfigModel) : String :=
  jsOrStr cfg.accessTokenKey "access_token"

/-- `removeTokenFromStorage` (auth.service.ts lines 442-451). -/
def removeTokenEffects (cfg : AuthConfigModel) : List Effect :=
  match cfg.storageKind with
  | .localStorage => [.localRemove (storageKey cfg)]
  | .sessionStorage => [.sessionRemove (storageKey cfg)]
  | .memory => []

/-- `clearAuth` (auth.service.ts lines 321-331): null both signals,
remove the stored token, and — when cross-tab sync is enabled — broadcast
the logout by writing then removing the localStorage key `auth_logout`
(the written value is `Date.now().toString()`). -/
def clearAuth (cfg : AuthConfigModel) (now : Int) (s : AuthState) :
    AuthState × List Effect :=
  ({ s with accessToken := none, user := none },
   removeTokenEffects cfg ++
     (if cfg.enableCrossTabSync then
        [Effect.localSet "auth_logout" (toString now),
         Effect.localRemove "auth_logout"]
      else []))

/-- What `scheduleTokenRefresh` decides to do after clearing any pending
timer. -/
inductive RefreshSchedule where
  | noSchedule
  | timer (delayMs : Int)
  | immediate
deriving DecidableEq

/-- `scheduleTokenRefresh` (auth.service.ts lines 336-362), as the
decision taken for a given stored token: no token, or a token without a
time-remaining value, schedules nothing; otherwise with
`refreshIn = timeRemaining - (refreshBeforeExpiry || 120000)` it sets a
timer for `refreshIn` when that is strictly positive and refreshes
immediately otherwise. -/
def refreshScheduleDecision (decode : JwtDecoder) (cfg : AuthConfigModel)
    (now : Int) (tok : Option String) : RefreshSchedule :=
  match tok with
  | none => .noSchedule
  | some token =>
    match getJwtTimeRemaining decode now token with
    | none => .noSchedule
    | some tr =>
      let rbe := jsOrNum cfg.refreshBeforeExpiry (2 * 60 * 1000)
      let refreshIn := tr - rbe
      if 0 < refreshIn then .timer refreshIn else .immediate

/-- The state-level effect of `scheduleTokenRefresh`: the pending timer is
always cleared first; a `timer d` decision re-arms it at `now + d` (the
`immediate` decision fires `refreshToken()` at once instead of arming a
timer). -/
def scheduleTokenRefresh (decode : JwtDecoder) (cfg : AuthConfigModel)
    (now : Int) (s : AuthState) : AuthState :=
  match refreshScheduleDecision decode cfg now s.accessToken with
  | .timer d => { s with refreshTimer := some (now + d) }
  | _ => { s with refreshTimer := none }

/-- `resetInactivityTimer` (auth.service.ts lines 377-390): clear the
pending timer; when unauthenticated, or the configured
`inactivityTimeout` is falsy (absent or 0), stop there; otherwise arm a
logout timer `timeout` milliseconds from now. -/
def resetInactivityTimer (cfg : AuthConfigModel) (now : Int) (s : AuthState) :
    AuthState :=
  let s' := { s with inactivityTimer := none }
  if isAuthenticated s' then
    match cfg.inactivityTimeout with
    | none => s'
    | some t => if t = 0 then s' else { s' with inactivityTimer := some (now + t) }
  else s'

/-- `recordActivity` (auth.service.ts lines 292-295): stamp the activity
time and reset the inactivity timer. -/
def recordActivity (cfg : AuthConfigModel) (now : Int) (s : AuthState) :
    AuthState :=
  resetInactivityTimer cfg now { s with lastActivityTime := now }

/-- The `storage`-event listener installed by `setupCrossTabSync`
(auth.service.ts lines 395-402): on the key `auth_logout`, clear the
local auth state and navigate to `routes.login`. -/
def handleStorageEvent (cfg : AuthConfigModel) (now : Int) (key : String)
    (s : AuthState) : AuthState × List Effect :=
  if key = "auth_logout" then
    let r := clearAuth cfg now s
    (r.1, r.2 ++ [Effect.navigate cfg.loginRoute])
  else (s, [])

/-- `loadTokenFromStorage` (auth.service.ts lines 422-437): read the
token from the configured storage (`memory` reads nothing) and, when it
is truthy (non-empty), set the `accessToken` signal — and nothing else. -/
def loadTokenFromStorage (cfg : AuthConfigModel)
    (localGet sessionGet : String → Option String) (s : AuthState) : AuthState :=
  let token : Option String :=
    match cfg.storageKind with
    | .localStorage => localGet (storageKey cfg)
    | .sessionStorage => sessionGet (storageKey cfg)
    | .memory => none
  match token with
  | none => s
  | some t => if t = "" then s else { s with accessToken := some t }

/-- `hasRole` (auth.service.ts lines 260-263):
`user?.roles?.some((r) => r.name === role) ?? false`. -/
def hasRole (s : AuthState) (role : String) : Bool :=
  match s.user with
  | none => false
  | some u =>
    match u.roles with
    | none => false
    | some rs => rs.any fun r => r.name = role

/-- `hasAnyRole` (auth.service.ts lines 268-270). -/
def hasAnyRole (s : AuthState) (roles : List String) : Bool :=
  roles.any fun role => hasRole s role

/-- `hasAllRoles` (auth.service.ts lines 275-277). -/
def hasAllRoles (s : AuthState) (roles : List String) : Bool :=
  roles.all fun role => hasRole s role

/-- `updateUser` (auth.service.ts lines 282-287): merge into the current
user when one is set, otherwise do nothing; the spread-merge
`{ ...currentUser, ...userData }` is abstracted as a function of the
current user. -/
def updateUser (f : AuthUser → AuthUser) (s : AuthState) : AuthState :=
  match s.user with
  | none => s
  | some u => { s with user := some (f u) }

/-- `reset` (auth.service.ts lines 300-306): clear auth, clear both
timers, un-initialize. -/
def serviceReset (cfg : AuthConfigModel) (now : Int) (s : AuthState) :
    AuthState × List Effect :=
  let r := clearAuth cfg now s
  ({ r.1 with
      refreshTimer := none
      inactivityTimer := none
      isInitialized := false
      isRefreshing := false },
   r.2)

/-- `authGuard` (auth.guard.ts lines 28-45): pass when authenticated;
otherwise navigate to `routes.login || '/login'` with the attempted URL
as the `returnUrl` query parameter, and refuse. -/
def authGuard (cfg : AuthConfigModel) (s : AuthState) (stateUrl : String) :
    Bool × List Effect :=
  if isAuthenticated s then (true, [])
  else
    (false,
     [Effect.navigateWithReturnUrl (jsOrStr cfg.loginRoute "/login") stateUrl])

/-- The listener side of one tab during a logout broadcast: tabs only
install the `storage` listener when `enableCrossTabSync` is set
(constructor, auth.service.ts lines 58-60). -/
def receiveLogout (cfg : AuthConfigModel) (now : Int) (s : AuthState) :
    AuthState :=
  if cfg.enableCrossTabSync then (handleStorageEvent cfg now "auth_logout" s).1
  else s

/-- A logout step in tab `i` of a multi-tab world sharing one config:
tab `i` runs `clearAuth`; the `auth_logout` localStorage write raises a
`storage` event in every *other* tab, which runs its listener. -/
def logoutBroadcast (cfg : AuthConfigModel) (now : Int) :
    List AuthState → Nat → List AuthState
  | [], _ => []
  | s :: rest, 0 =>
    (clearAuth cfg now s).1 :: rest.map (receiveLogout cfg now)
  | s :: rest, n + 1 =>
    receiveLogout cfg now s :: logoutBroadcast cfg now rest n

/-- The states reachable from service construction without any successful
login / register / refresh / OAuth response (`setAuth` never runs): the
constructor-time `loadTokenFromStorage` plus every modelled operation
that does not consume an `AuthResponse`. -/
inductive PreAuthReachable (cfg : AuthConfigModel) (t0 : Int) : AuthState → Prop where
  | init : PreAuthReachable cfg t0 (initialState t0)
  | load (lg sg : String → Option String) (s : AuthState) :
      PreAuthReachable cfg t0 s →
      PreAuthReachable cfg t0 (loadTokenFromStorage cfg lg sg s)
  | clear (now : Int) (s : AuthState) :
      PreAuthReachable cfg t0 s → PreAuthReachable cfg t0 (clearAuth cfg now s).1
  | activity (now : Int) (s : AuthState) :
      PreAuthReachable cfg t0 s → PreAuthReachable cfg t0 (recordActivity cfg now s)
  | resetTimer (now : Int) (s : AuthState) :
      PreAuthReachable cfg t0 s →
      PreAuthReachable cfg t0 (resetInactivityTimer cfg now s)
  | storage (now : Int) (key : String) (s : AuthState) :
      PreAuthReachable cfg t0 s →
      PreAuthReachable cfg t0 (handleStorageEvent cfg now key s).1
  | schedule (decode : JwtDecoder) (now : Int) (s : AuthState) :
      PreAuthReachable cfg t0 s →
      PreAuthReachable cfg t0 (scheduleTokenRefresh decode cfg now s)
  | update (f : AuthUser → AuthUser) (s : AuthState) :
      PreAuthReachable cfg t0 s → PreAuthReachable cfg t0 (updateUser f s)
  | reset (now : Int) (s : AuthState) :
      PreAuthReachable cfg t0 s → PreAuthReachable cfg t0 (serviceReset cfg now s).1

/-! Concrete objects used by witnesses and counterexamples. -/

/-- A decoder behaving like `decodeJwt` on a token whose payload is the
JSON object with a single claim `exp = e` (for instance, for `e = 0`,
`decodeJwt` maps `"x.eyJleHAiOjB9.y"` to `{"exp":0}`). -/
def constExpDecoder (e : Int) : JwtDecoder := fun _ => some { exp := some e }

/-- A decoder for undecodable tokens: `decodeJwt` returns `null`. -/
def failDecoder : JwtDecoder := fun _ => none

/-- A sample configuration: memory token storage, all-default optional
values, cross-tab sync on, `/login` login route. -/
def demoConfig : AuthConfigModel :=
  { storageKind := .memory
    accessTokenKey := none
    headerScheme := none
    refreshBeforeExpiry := none
    inactivityTimeout := some 1800000
    enableCrossTabSync := true
    loginRoute := some "/login"
    afterLogoutRoute := none
    skipAuthEndpoints := [] }

/-- A sample logged-in user holding the single role `admin`. -/
def demoUser : AuthUser := { id := "u1", roles := some [{ name := "admin" }] }

/-- A sample authenticated service state. -/
def demoState : AuthState :=
  { accessToken := some "tok"
    user := some demoUser
    isInitialized := true
    isRefreshing := false
    refreshTimer := none
    inactivityTimer := none
    lastActivityTime := 0 }

/-! The claims. -/

/-- C9: for every authentication state, `hasAnyRole []` is `false`
(`[].some` is vacuously false) while `hasAllRoles []` is `true`
(`[].every` is vacuously true), so an empty `hasAllRoles` requirement is
satisfied by every user, including no user at all. -/
theorem c9_empty_role_lists (s : AuthState) :
    hasAnyRole s [] = false ∧ hasAllRoles s [] = true := by
  simp [hasAnyRole, hasAllRoles]

/-- C7: `hasRole role` is `true` exactly when a user is logged in, that
user has a `roles` array, and some entry of it has `name` equal to the
given string; with no user logged in it is `false` for every role name. -/
theorem c7_hasRole_iff (s : AuthState) (role : String) :
    (hasRole s role = true ↔
      ∃ u rs r, s.user = some u ∧ u.roles = some rs ∧ r ∈ rs ∧ r.name = role)
    ∧ (s.user = none → hasRole s role = false) := by
  constructor
  · cases hu : s.user with
    | none => simp [hasRole, hu]
    | some u =>
      cases hr : u.roles with
      | none => simp [hasRole, hu, hr]
      | some rs =>
        simp only [hasRole, hu, hr, List.any_eq_true, decide_eq_true_eq]
        constructor
        · rintro ⟨r, hmem, hname⟩
          exact ⟨u, rs, r, rfl, hr, hmem, hname⟩
        · rintro ⟨u', rs', r, hu', hr', hmem, hname⟩
          cases hu'
          rw [hr] at hr'
          cases hr'
          exact ⟨r, hmem, hname⟩
  · intro h
    simp [hasRole, h]

/-- C7 witness: with no user logged in, `hasRole "admin"` is `false`. -/
theorem c7_witness : hasRole (initialState 0) "admin" = false :=
  (c7_hasRole_iff (initialState 0) "admin").2 rfl

/-- C6: the guard passes exactly when the service is authenticated
(access token and user both non-null); otherwise it refuses and
navigates to `routes.login || '/login'` carrying the attempted URL as
the `returnUrl` query parameter. -/
theorem c6_authGuard (cfg : AuthConfigModel) (s : AuthState) (url : String) :
    isAuthenticated s = (s.accessToken.isSome && s.user.isSome)
    ∧ (authGuard cfg s url).1 = isAuthenticated s
    ∧ (isAuthenticated s = true → authGuard cfg s url = (true, []))
    ∧ (isAuthenticated s = false →
        authGuard cfg s url =
          (false,
           [Effect.navigateWithReturnUrl (jsOrStr cfg.loginRoute "/login") url])) := by
  refine ⟨rfl, ?_, ?_, ?_⟩ <;> by_cases h : isAuthenticated s <;> simp [authGuard, h]

/-- C6 witness: at an unauthenticated state the guard refuses and
redirects to the configured `/login` with the attempted URL. -/
theorem c6_witness :
    authGuard demoConfig (initialState 0) "/dashboard" =
      (false, [Effect.navigateWithReturnUrl "/login" "/dashboard"]) :=
  (c6_authGuard demoConfig (initialState 0) "/dashboard").2.2.2 rfl

/-- C5: for a positive current time, `isJwtExpired` is `true` iff the
token has no decodable payload with a numeric `exp` claim, or
`exp * 1000` lies strictly before the current time. (The JavaScript
truthiness test `!decoded.exp` also classifies `exp = 0` as expired,
which for a positive current time agrees with `0 * 1000 < now`.) -/
theorem c5_isJwtExpired_iff (decode : JwtDecoder) (now : Int) (tok : String)
    (hnow : 0 < now) :
    (isJwtExpired decode now tok = true ↔
      (¬ ∃ p e, decode tok = some p ∧ p.exp = some e) ∨
      (∃ p e, decode tok = some p ∧ p.exp = some e ∧ e * 1000 < now)) := by
  cases hd : decode tok with
  | none =>
    refine iff_of_true (by simp [isJwtExpired, hd]) (Or.inl ?_)
    rintro ⟨p, e, hp, -⟩
    cases hp
  | some p =>
    cases he : p.exp with
    | none =>
      refine iff_of_true (by simp [isJwtExpired, hd, he]) (Or.inl ?_)
      rintro ⟨p', e, hp, hexp⟩
      cases hp
      rw [he] at hexp
      cases hexp
    | some e =>
      by_cases h0 : e = 0
      · subst h0
        exact iff_of_true (by simp [isJwtExpired, hd, he])
          (Or.inr ⟨p, 0, rfl, he, by omega⟩)
      · constructor
        · intro h
          simp [isJwtExpired, hd, he, h0] at h
          exact Or.inr ⟨p, e, rfl, he, h⟩
        · rintro (hno | ⟨p', e', hp, hexp, hlt⟩)
          · exact absurd ⟨p, e, rfl, he⟩ hno
          · cases hp
            rw [he] at hexp
            cases hexp
            simp [isJwtExpired, hd, he, h0]
            exact hlt

/-- C5 witness: at time 2000 ms, a token with `exp = 1` (expiry at
1000 ms) is expired, and so is an undecodable token. -/
theorem c5_witness :
    isJwtExpired (constExpDecoder 1) 2000 "tok" = true
    ∧ isJwtExpired failDecoder 2000 "tok" = true :=
  ⟨(c5_isJwtExpired_iff (constExpDecoder 1) 2000 "tok" (by decide)).2
      (Or.inr ⟨{ exp := some 1 }, 1, rfl, rfl, by decide⟩),
   (c5_isJwtExpired_iff failDecoder 2000 "tok" (by decide)).2
      (Or.inl (by rintro ⟨p, e, h, -⟩; cases h))⟩

/-- C10 counterexample: the claim says `getJwtTimeRemaining` returns
`null` (only) when the token has no decodable `exp` claim. But for a
token decoding to the payload `{"exp":0}` — e.g. `"x.eyJleHAiOjB9.y"`
under the real `decodeJwt` — the claim would demand the non-negative
number `0` at time 1000000 ms, while the code's JavaScript truthiness
test `!decoded.exp` classifies `exp = 0` as absent and returns `null`. -/
theorem c10_counterexample :
    (constExpDecoder 0) "x.eyJleHAiOjB9.y" = some { exp := some 0 }
    ∧ getJwtTimeRemaining (constExpDecoder 0) 1000000 "x.eyJleHAiOjB9.y" = none :=
  ⟨rfl, rfl⟩

/-- C10 (amended): `getJwtTimeRemaining` returns `null` exactly when the
token has no decodable `exp` claim or its `exp` claim is the (falsy)
number 0; every returned number is non-negative; and an already-expired
token with a nonzero `exp` claim yields exactly 0. -/
theorem c10_time_remaining_nonneg (decode : JwtDecoder) (now : Int) (tok : String) :
    (getJwtTimeRemaining decode now tok = none ↔
      decode tok = none ∨
        ∃ p, decode tok = some p ∧ (p.exp = none ∨ p.exp = some 0))
    ∧ (∀ n, getJwtTimeRemaining decode now tok = some n → 0 ≤ n)
    ∧ (∀ p e, decode tok = some p → p.exp = some e → e ≠ 0 → e * 1000 < now →
        getJwtTimeRemaining decode now tok = some 0) := by
  refine ⟨?_, ?_, ?_⟩
  · cases hd : decode tok with
    | none => simp [getJwtTimeRemaining, getJwtExpiration, hd]
    | some p =>
      cases he : p.exp with
      | none => simp [getJwtTimeRemaining, getJwtExpiration, hd, he]
      | some e =>
        by_cases h0 : e = 0
        · subst h0
          simp [getJwtTimeRemaining, getJwtExpiration, hd, he]
        · simp [getJwtTimeRemaining, getJwtExpiration, hd, he, h0]
  · intro n hn
    cases hd : decode tok with
    | none => simp [getJwtTimeRemaining, getJwtExpiration, hd] at hn
    | some p =>
      cases he : p.exp with
      | none => simp [getJwtTimeRemaining, getJwtExpiration, hd, he] at hn
      | some e =>
        by_cases h0 : e = 0
        · subst h0
          simp [getJwtTimeRemaining, getJwtExpiration, hd, he] at hn
        · simp [getJwtTimeRemaining, getJwtExpiration, hd, he, h0] at hn
          subst hn
          exact le_max_left 0 _
  · intro p e hd he h0 hlt
    simp [getJwtTimeRemaining, getJwtExpiration, hd, he, h0]
    omega

/-- C10 witness (amended claim): for a token expiring at 5000 ms read at
time 7000 ms the remaining time is clamped to 0, and an undecodable
token yields `null`. -/
theorem c10_witness :
    getJwtTimeRemaining (constExpDecoder 5) 7000 "tok" = some 0
    ∧ getJwtTimeRemaining failDecoder 7000 "tok" = none :=
  ⟨(c10_time_remaining_nonneg (constExpDecoder 5) 7000 "tok").2.2
      { exp := some 5 } 5 rfl rfl (by decide) (by decide),
   (c10_time_remaining_nonneg failDecoder 7000 "tok").1.2 (Or.inl rfl)⟩

/-- C2 counterexample: the claim says a successful response whose access
token carries an `exp` claim always leads to a scheduled or immediate
refresh, and that only tokens with no decodable `exp` claim schedule
nothing. For a token decoding to `{"exp":0}` (e.g. `"x.eyJleHAiOjB9.y"`
under the real `decodeJwt`) at time 1000000 ms with the default margin,
the claim would demand an immediate refresh (0 − 1000000 − 120000 < 0),
but `getJwtTimeRemaining` returns `null` for the falsy `exp = 0` and
`scheduleTokenRefresh` schedules nothing at all. -/
theorem c2_counterexample :
    (constExpDecoder 0) "x.eyJleHAiOjB9.y" = some { exp := some 0 }
    ∧ refreshScheduleDecision (constExpDecoder 0) demoConfig 1000000
        (some "x.eyJleHAiOjB9.y") = .noSchedule
    ∧ refreshScheduleDecision (constExpDecoder 0) demoConfig 1000000
        (some "x.eyJleHAiOjB9.y") ≠ .immediate := by
  refine ⟨rfl, rfl, by decide⟩

/-- C2 (amended): after a response whose access token carries a *nonzero*
decodable `exp` claim, with a non-negative margin
(`refreshBeforeExpiry` when that is nonzero, else the 120000 ms
default), the next refresh is scheduled to fire after
`exp·1000 − now − margin` when that is strictly positive, and is
triggered immediately otherwise; when the token has no decodable `exp`
claim, or its `exp` is the falsy 0, or there is no token, nothing is
scheduled. -/
theorem c2_refresh_scheduling (decode : JwtDecoder) (cfg : AuthConfigModel)
    (now : Int) (tok : String) (p : JwtPayload) (e : Int)
    (hd : decode tok = some p) (he : p.exp = some e) (h0 : e ≠ 0)
    (hm : 0 ≤ jsOrNum cfg.refreshBeforeExpiry (2 * 60 * 1000)) :
    (refreshScheduleDecision decode cfg now (some tok) =
      if 0 < e * 1000 - now - jsOrNum cfg.refreshBeforeExpiry (2 * 60 * 1000)
      then .timer (e * 1000 - now - jsOrNum cfg.refreshBeforeExpiry (2 * 60 * 1000))
      else .immediate)
    ∧ (∀ tok' : String,
        (decode tok' = none ∨
          ∃ p', decode tok' = some p' ∧ (p'.exp = none ∨ p'.exp = some 0)) →
        refreshScheduleDecision decode cfg now (some tok') = .noSchedule)
    ∧ refreshScheduleDecision decode cfg now none = .noSchedule := by
  refine ⟨?_, ?_, rfl⟩
  · unfold refreshScheduleDecision
    simp only [getJwtTimeRemaining, getJwtExpiration, hd, he, h0, if_false]
    set rbe := jsOrNum cfg.refreshBeforeExpiry (2 * 60 * 1000) with hrbe
    by_cases hpos : 0 < e * 1000 - now - rbe
    · rw [if_pos hpos]
      have hmax : max 0 (e * 1000 - now) = e * 1000 - now := by omega
      simp only [hmax]
      rw [if_pos (by omega)]
    · rw [if_neg hpos]
      have : ¬ 0 < max 0 (e * 1000 - now) - rbe := by omega
      simp only [this, if_false]
  · intro tok' h
    rcases h with h | ⟨p', hp', h⟩
    · simp [refreshScheduleDecision, getJwtTimeRemaining, getJwtExpiration, h]
    · rcases h with h | h <;>
        simp [refreshScheduleDecision, getJwtTimeRemaining, getJwtExpiration, hp', h]

/-- A decoder that decodes the token `"tok"` to the payload
`{"exp":10000}` and fails on every other token. -/
def mixedDecoder : JwtDecoder :=
  fun t => if t = "tok" then some { exp := some 10000 } else none

/-- C2 witness (amended claim): a token expiring at 10000000 ms seen at
time 1000000 ms with the default 120000 ms margin is scheduled for
refresh 8880000 ms later; an undecodable token schedules nothing. -/
theorem c2_witness :
    refreshScheduleDecision mixedDecoder demoConfig 1000000
        (some "tok") = .timer 8880000
    ∧ refreshScheduleDecision mixedDecoder demoConfig 1000000
        (some "bad") = .noSchedule := by
  have h := c2_refresh_scheduling mixedDecoder demoConfig 1000000
    "tok" { exp := some 10000 } 10000 (by decide) rfl (by decide) (by decide)
  refine ⟨?_, ?_⟩
  · rw [h.1]
    decide
  · exact h.2.1 "bad" (Or.inl (by decide))

/-- C3: when authenticated with a configured (truthy) inactivity
timeout `t`, `resetInactivityTimer` arms an automatic logout exactly `t`
milliseconds from now, and `recordActivity` stamps the activity time and
re-arms the timer relative to the moment of activity, discarding any
pending logout; when unauthenticated, or with no (or a falsy 0) timeout
configured, no logout is ever armed. -/
theorem c3_inactivity_timeout (cfg : AuthConfigModel) (s : AuthState) (now : Int) :
    (∀ t, isAuthenticated s = true → cfg.inactivityTimeout = some t → t ≠ 0 →
      (resetInactivityTimer cfg now s).inactivityTimer = some (now + t)
      ∧ recordActivity cfg now s =
          { s with lastActivityTime := now, inactivityTimer := some (now + t) })
    ∧ (isAuthenticated s = false →
        (resetInactivityTimer cfg now s).inactivityTimer = none
        ∧ (recordActivity cfg now s).inactivityTimer = none)
    ∧ (cfg.inactivityTimeout = none →
        (resetInactivityTimer cfg now s).inactivityTimer = none
        ∧ (recordActivity cfg now s).inactivityTimer = none)
    ∧ (cfg.inactivityTimeout = some 0 →
        (resetInactivityTimer cfg now s).inactivityTimer = none
        ∧ (recordActivity cfg now s).inactivityTimer = none) := by
  have hact : isAuthenticated { s with lastActivityTime := now } = isAuthenticated s := rfl
  refine ⟨fun t hauth ht ht0 => ?_, fun hna => ?_, fun hn => ?_, fun hz => ?_⟩
  · constructor
    · simp [resetInactivityTimer, isAuthenticated] at hauth ⊢
      simp [hauth, ht, ht0]
    · simp [recordActivity, resetInactivityTimer, isAuthenticated] at hauth ⊢
      simp [hauth, ht, ht0]
  · have hb : (s.accessToken.isSome && s.user.isSome) = false := hna
    constructor <;>
      simp [resetInactivityTimer, recordActivity, isAuthenticated, hb]
  · constructor <;>
      · simp only [resetInactivityTimer, recordActivity, hn]
        split <;> rfl
  · constructor <;>
      · simp only [resetInactivityTimer, recordActivity, hz]
        split <;> rfl

/-- C3 witness: for the authenticated demo state with a 1800000 ms
timeout, activity at time 5000 arms logout for time 1805000; at the
unauthenticated initial state nothing is armed. -/
theorem c3_witness :
    (recordActivity demoConfig 5000 demoState).inactivityTimer = some 1805000
    ∧ (resetInactivityTimer demoConfig 5000 (initialState 0)).inactivityTimer = none := by
  constructor
  · have h := (c3_inactivity_timeout demoConfig demoState 5000).1 1800000
      (by decide) rfl (by decide)
    rw [h.2]
    decide
  · exact ((c3_inactivity_timeout demoConfig (initialState 0) 5000).2.1 (by decide)).1

/-- `loadTokenFromStorage` writes only the `accessToken` signal and never
touches the user. -/
theorem loadTokenFromStorage_user (cfg : AuthConfigModel)
    (lg sg : String → Option String) (s : AuthState) :
    (loadTokenFromStorage cfg lg sg s).user = s.user := by
  unfold loadTokenFromStorage
  rcases hk : cfg.storageKind <;> simp only [hk]
  · cases lg (storageKey cfg) with
    | none => rfl
    | some t => by_cases ht : t = "" <;> simp [ht]
  · cases sg (storageKey cfg) with
    | none => rfl
    | some t => by_cases ht : t = "" <;> simp [ht]

/-- `resetInactivityTimer` never touches the user. -/
theorem resetInactivityTimer_user (cfg : AuthConfigModel) (now : Int)
    (s : AuthState) : (resetInactivityTimer cfg now s).user = s.user := by
  unfold resetInactivityTimer
  dsimp only
  split
  · split
    · rfl
    · split <;> rfl
  · rfl

/-- `recordActivity` never touches the user. -/
theorem recordActivity_user (cfg : AuthConfigModel) (now : Int) (s : AuthState) :
    (recordActivity cfg now s).user = s.user := by
  unfold recordActivity
  rw [resetInactivityTimer_user]

/-- `scheduleTokenRefresh` never touches the user. -/
theorem scheduleTokenRefresh_user (decode : JwtDecoder) (cfg : AuthConfigModel)
    (now : Int) (s : AuthState) :
    (scheduleTokenRefresh decode cfg now s).user = s.user := by
  unfold scheduleTokenRefresh
  split <;> rfl

/-- C8: being authenticated demands both a non-null access token and a
non-null user; `loadTokenFromStorage` (run at construction) sets only
the token signal, never the user; hence every state reachable from
construction without a successful login / register / refresh / OAuth
response reports unauthenticated, even when a token was restored from
storage. -/
theorem c8_persisted_token_never_authenticates :
    (∀ s : AuthState, isAuthenticated s = (s.accessToken.isSome && s.user.isSome))
    ∧ (∀ (cfg : AuthConfigModel) (lg sg : String → Option String) (s : AuthState),
        (loadTokenFromStorage cfg lg sg s).user = s.user)
    ∧ (∀ (cfg : AuthConfigModel) (t0 : Int) (s : AuthState),
        PreAuthReachable cfg t0 s → isAuthenticated s = false) := by
  refine ⟨fun s => rfl, loadTokenFromStorage_user, ?_⟩
  intro cfg t0 s h
  have huser : s.user = none := by
    induction h with
    | init => rfl
    | load lg sg s hs ih => rw [loadTokenFromStorage_user]; exact ih
    | clear now s hs ih => rfl
    | activity now s hs ih => rw [recordActivity_user]; exact ih
    | resetTimer now s hs ih => rw [resetInactivityTimer_user]; exact ih
    | storage now key s hs ih =>
      unfold handleStorageEvent
      split
      · rfl
      · exact ih
    | schedule decode now s hs ih => rw [scheduleTokenRefresh_user]; exact ih
    | update f s hs ih => simp [updateUser, ih]
    | reset now s hs ih => rfl
  simp [isAuthenticated, huser]

/-- C8 witness: the freshly constructed state, after restoring a token
from localStorage, holds the token but still reports unauthenticated. -/
theorem c8_witness :
    isAuthenticated
      (loadTokenFromStorage
        { demoConfig with storageKind := .localStorage }
        (fun _ => some "stored-token") (fun _ => none) (initialState 0)) = false :=
  c8_persisted_token_never_authenticates.2.2
    { demoConfig with storageKind := .localStorage } 0 _
    (PreAuthReachable.load _ _ _ PreAuthReachable.init)

/-- C4: with cross-tab sync enabled, every `clearAuth` broadcasts the
logout by writing then removing the localStorage key `auth_logout`;
every tab receiving a `storage` event for that key clears its own state
and navigates to the login route; and after a logout step in any one tab
of a shared-config multi-tab world, no tab remains authenticated. -/
theorem c4_cross_tab_logout (cfg : AuthConfigModel)
    (hsync : cfg.enableCrossTabSync = true) :
    (∀ now s, (clearAuth cfg now s).2 =
        removeTokenEffects cfg ++
          [Effect.localSet "auth_logout" (toString now),
           Effect.localRemove "auth_logout"])
    ∧ (∀ now s,
        (handleStorageEvent cfg now "auth_logout" s).1.accessToken = none
        ∧ (handleStorageEvent cfg now "auth_logout" s).1.user = none
        ∧ Effect.navigate cfg.loginRoute ∈
            (handleStorageEvent cfg now "auth_logout" s).2)
    ∧ (∀ now tabs i, ∀ s' ∈ logoutBroadcast cfg now tabs i,
        isAuthenticated s' = false) := by
  refine ⟨fun now s => by simp [clearAuth, hsync], fun now s => ?_, ?_⟩
  · exact ⟨rfl, rfl, by simp [handleStorageEvent, clearAuth]⟩
  · intro now tabs i s' hs'
    induction tabs generalizing i with
    | nil => simp [logoutBroadcast] at hs'
    | cons a rest ih =>
      cases i with
      | zero =>
        simp only [logoutBroadcast, List.mem_cons] at hs'
        rcases hs' with rfl | hmem
        · rfl
        · rcases List.mem_map.mp hmem with ⟨b, hb, rfl⟩
          simp [receiveLogout, hsync, handleStorageEvent, clearAuth, isAuthenticated]
      | succ n =>
        simp only [logoutBroadcast, List.mem_cons] at hs'
        rcases hs' with rfl | hmem
        · simp [receiveLogout, hsync, handleStorageEvent, clearAuth, isAuthenticated]
        · exact ih n hmem

/-- C4 witness: in a three-tab world where tabs 1 and 2 start
authenticated, after a logout step in tab 1 the bystander tab 2 is no
longer authenticated. -/
theorem c4_witness :
    isAuthenticated
      ((logoutBroadcast demoConfig 99 [initialState 0, demoState, demoState] 1).getD
        2 demoState) = false :=
  (c4_cross_tab_logout demoConfig rfl).2.2 99 [initialState 0, demoState, demoState]
    1 _ (by decide)

end LabyrinthNexus
